import Mathlib

/-!
Shallow embedding of the adaptive IV-therapy control core
(`src/Utils.hpp`, `src/iv_system_types.hpp`, `src/SafetyMonitor.{hpp,cpp}`,
`src/StateEstimator.{hpp,cpp}`, `src/AdaptiveController.{hpp,cpp}`, and the
control loop in `src/adaptive_iv_therapy_control_system.cpp`), together with
proofs about the specified safety and functional properties.

Doubles are modelled as real numbers; the C++ member functions become pure
functions with the object state passed and returned explicitly.  The
`evaluate` entry point follows the canonical declaration in
`SafetyMonitor.hpp` (explicit `dt_minutes`, internal clock removed); the six
check bodies are taken verbatim from `SafetyMonitor.cpp`.
-/

namespace IVSys

noncomputable section

/-- `Utils::clamp` from `Utils.hpp`: `max(lo, min(v, hi))`. -/
def clamp (v lo hi : ℝ) : ℝ := max lo (min v hi)

/-- `Utils::sigmoid` from `Utils.hpp`. -/
def sigmoid (x center steepness : ℝ) : ℝ :=
  1 / (1 + Real.exp (-steepness * (x - center)))

/-- `Utils::exponential_decay` from `Utils.hpp`. -/
def exponential_decay (x rate : ℝ) : ℝ := Real.exp (-rate * x)

/-- `Utils::gaussian` from `Utils.hpp` (the canonical, guarded variant):
returns `0` when `sigma <= 0` instead of dividing by zero. -/
def gaussian (x center sigma : ℝ) : ℝ :=
  if sigma ≤ 0 then 0
  else Real.exp (-(1/2) * ((x - center) / sigma) ^ 2)

/-- `Telemetry` from `iv_system_types.hpp` (timestamp omitted: it is never
read by the estimation/safety/control functions). -/
structure Telemetry where
  hydration_pct : ℝ
  heart_rate_bpm : ℝ
  temp_celsius : ℝ
  blood_loss_idx : ℝ
  fatigue_idx : ℝ
  anxiety_idx : ℝ
  signal_quality : ℝ
  spo2_pct : ℝ
  lactate_mmol : ℝ
  cardiac_output_L_min : ℝ

/-- `EnergyTransferParams` from `iv_system_types.hpp`. -/
structure EnergyTransferParams where
  P_baseline : ℝ
  P_iv_supplement : ℝ
  P_energy_cells : ℝ
  I_sp_standard : ℝ
  I_sp_atp_loaded : ℝ
  I_sp_mitochondrial : ℝ
  eta_brain_heart : ℝ
  eta_muscle : ℝ
  eta_ischemic : ℝ
  v_optimal_cm_s : ℝ
  sigma_velocity : ℝ

/-- Default-constructed `EnergyTransferParams` (constructor body in
`iv_system_types.hpp`). -/
def EnergyTransferParams.default : EnergyTransferParams where
  P_baseline := 100
  P_iv_supplement := 35
  P_energy_cells := 0
  I_sp_standard := 1.2
  I_sp_atp_loaded := 4.5
  I_sp_mitochondrial := 8.0
  eta_brain_heart := 0.90
  eta_muscle := 0.75
  eta_ischemic := 0.40
  v_optimal_cm_s := 20
  sigma_velocity := 5

/-- `PatientState` from `iv_system_types.hpp`. -/
structure PatientState where
  hydration_pct : ℝ
  heart_rate_bpm : ℝ
  coherence_sigma : ℝ
  energy_T : ℝ
  energy_T_absolute : ℝ
  metabolic_load : ℝ
  cardiac_reserve : ℝ
  risk_score : ℝ
  estimated_flow_velocity_cm_s : ℝ
  flow_efficiency : ℝ
  uncertainty : ℝ

/-- `PatientProfile` from `iv_system_types.hpp`. -/
structure PatientProfile where
  weight_kg : ℝ
  age_years : ℝ
  cardiac_condition : Bool
  renal_impairment : Bool
  diabetes : Bool
  baseline_hr_bpm : ℝ
  max_safe_infusion_rate : ℝ
  energy_params : EnergyTransferParams
  current_tissue_perfusion : ℝ

/-- `ControlOutput` from `iv_system_types.hpp`.  The `rationale` string is
omitted: per the design it is diagnostic text with no control effect. -/
structure ControlOutput where
  infusion_ml_per_min : ℝ
  confidence : ℝ
  safety_override : Bool
  warning_flags : String

/-- `SafetyMonitor::SafetyCheck` from `SafetyMonitor.hpp`. -/
structure SafetyCheck where
  passed : Bool
  max_allowed_rate : ℝ
  warnings : String

/-- The persistent fields of `SafetyMonitor` (`SafetyMonitor.hpp`): the
profile, the cumulative volume, the derived 24h ceiling, and the ring of
recent commanded rates. -/
structure SafetyMonitor where
  profile : PatientProfile
  cumulative_volume_ml : ℝ
  max_volume_24h_ml : ℝ
  recent_rates : List ℝ

/-- `config::MAX_RATE_CHANGE_ML_MIN` from `config_defaults.hpp`. -/
def MAX_RATE_CHANGE : ℝ := 0.3

/-- `config::MIN_CARDIAC_RESERVE` from `config_defaults.hpp`. -/
def MIN_CARDIAC_RESERVE : ℝ := 0.2

/-- `config::HIGH_RISK_THRESHOLD` from `config_defaults.hpp`. -/
def MAX_RISK_THRESHOLD : ℝ := 0.75

/-- `SafetyMonitor::SafetyMonitor(prof)`: cumulative volume starts at `0`;
the 24h ceiling is `weight * 35`, reduced by factor `0.7` for a cardiac
condition and `0.6` for renal impairment. -/
def SafetyMonitor.init (prof : PatientProfile) : SafetyMonitor where
  profile := prof
  cumulative_volume_ml := 0
  max_volume_24h_ml :=
    prof.weight_kg * 35 * (if prof.cardiac_condition then 0.7 else 1)
      * (if prof.renal_impairment then 0.6 else 1)
  recent_rates := []

/-- Check 1 trigger (volume overload), `SafetyMonitor.cpp`: the projected
volume `cumulative + requested_rate * dt_minutes` exceeds 90% of the 24h
ceiling.  (`requested_rate * 60 * elapsed_h` with the elapsed time supplied
explicitly in minutes, per the `dt_minutes` declaration in
`SafetyMonitor.hpp`.) -/
abbrev SafetyMonitor.cond1 (mon : SafetyMonitor) (requested_rate dt_minutes : ℝ) : Prop :=
  mon.cumulative_volume_ml + requested_rate * dt_minutes > mon.max_volume_24h_ml * 0.9

/-- Check 2 trigger (cardiac load), `SafetyMonitor.cpp`. -/
abbrev SafetyMonitor.cond2 (state : PatientState) : Prop :=
  state.cardiac_reserve < MIN_CARDIAC_RESERVE

/-- Check 4 trigger (high risk state), `SafetyMonitor.cpp`. -/
abbrev SafetyMonitor.cond4 (state : PatientState) : Prop :=
  state.risk_score > MAX_RISK_THRESHOLD

/-- Check 5 trigger (tachycardia), `SafetyMonitor.cpp`. -/
abbrev SafetyMonitor.cond5 (mon : SafetyMonitor) (state : PatientState) : Prop :=
  state.heart_rate_bpm > mon.profile.baseline_hr_bpm * 1.4

/-- Ceiling after check 1, starting from `profile.max_safe_infusion_rate`. -/
def SafetyMonitor.ceil1 (mon : SafetyMonitor) (requested_rate dt_minutes : ℝ) : ℝ :=
  if mon.cond1 requested_rate dt_minutes
  then min mon.profile.max_safe_infusion_rate 0.3
  else mon.profile.max_safe_infusion_rate

/-- Ceiling after check 2. -/
def SafetyMonitor.ceil2 (mon : SafetyMonitor) (requested_rate : ℝ) (state : PatientState)
    (dt_minutes : ℝ) : ℝ :=
  if SafetyMonitor.cond2 state
  then min (mon.ceil1 requested_rate dt_minutes) 0.5
  else mon.ceil1 requested_rate dt_minutes

/-- The rate-of-change bound of check 3: `last ± MAX_RATE_CHANGE` depending
on the direction of the requested change. -/
def limitedRate (requested_rate last : ℝ) : ℝ :=
  last + (if requested_rate > last then MAX_RATE_CHANGE else -MAX_RATE_CHANGE)

/-- Ceiling after check 3 (rate-of-change limiting against the back of the
recent-rates ring, skipped when the ring is empty). -/
def SafetyMonitor.ceil3 (mon : SafetyMonitor) (requested_rate : ℝ) (state : PatientState)
    (dt_minutes : ℝ) : ℝ :=
  match mon.recent_rates.getLast? with
  | none => mon.ceil2 requested_rate state dt_minutes
  | some last =>
      if |requested_rate - last| > MAX_RATE_CHANGE
      then min (mon.ceil2 requested_rate state dt_minutes) (limitedRate requested_rate last)
      else mon.ceil2 requested_rate state dt_minutes

/-- Ceiling after check 4. -/
def SafetyMonitor.ceil4 (mon : SafetyMonitor) (requested_rate : ℝ) (state : PatientState)
    (dt_minutes : ℝ) : ℝ :=
  if SafetyMonitor.cond4 state
  then min (mon.ceil3 requested_rate state dt_minutes) 0.6
  else mon.ceil3 requested_rate state dt_minutes

/-- Ceiling after check 5: the running minimum after all five tightening
checks, before the emergency-floor override. -/
def SafetyMonitor.preCeiling (mon : SafetyMonitor) (requested_rate : ℝ) (state : PatientState)
    (dt_minutes : ℝ) : ℝ :=
  if mon.cond5 state
  then min (mon.ceil4 requested_rate state dt_minutes) 0.4
  else mon.ceil4 requested_rate state dt_minutes

/-- Check 6 trigger (emergency minimum rate), `SafetyMonitor.cpp`: the
running-minimum ceiling fell below `0.1` and hydration is critically low. -/
abbrev SafetyMonitor.cond6 (mon : SafetyMonitor) (requested_rate : ℝ) (state : PatientState)
    (dt_minutes : ℝ) : Prop :=
  mon.preCeiling requested_rate state dt_minutes < 0.1 ∧ state.hydration_pct < 50

/-- Final ceiling: the emergency floor raises the ceiling back to `0.1`
exactly when check 6 fires. -/
def SafetyMonitor.finalCeiling (mon : SafetyMonitor) (requested_rate : ℝ) (state : PatientState)
    (dt_minutes : ℝ) : ℝ :=
  if mon.cond6 requested_rate state dt_minutes then 0.1
  else mon.preCeiling requested_rate state dt_minutes

/-- The space-delimited warning tokens appended by checks 1-5, in program
order (`SafetyMonitor.cpp`). -/
def SafetyMonitor.preWarnings (mon : SafetyMonitor) (requested_rate : ℝ) (state : PatientState)
    (dt_minutes : ℝ) : String :=
  (if mon.cond1 requested_rate dt_minutes then "VOLUME_LIMIT_APPROACH " else "")
    ++ (if SafetyMonitor.cond2 state then "LOW_CARDIAC_RESERVE " else "")
    ++ (match mon.recent_rates.getLast? with
        | none => ""
        | some last =>
            if |requested_rate - last| > MAX_RATE_CHANGE then "RATE_CHANGE_LIMITED " else "")
    ++ (if SafetyMonitor.cond4 state then "HIGH_RISK_STATE " else "")
    ++ (if mon.cond5 state then "TACHYCARDIA_DETECTED " else "")

/-- `SafetyMonitor::evaluate(requested_rate, state, dt_minutes)`.
Modelled from the spec: the canonical explicit-`dt_minutes` signature is the
one declared in `SafetyMonitor.hpp` and exercised by
`tests/test_safety_monitor.cpp`; its body is missing from the repository
(`SafetyMonitor.cpp` still holds the rejected wall-clock variant), so the
check bodies are taken from `SafetyMonitor.cpp` with the internally measured
`elapsed_h` replaced by the explicit `dt_minutes` parameter
(`requested_rate * 60 * elapsed_h = requested_rate * dt_minutes`).
`passed` is set to `max_allowed_rate >= 0.1` after all six checks. -/
def SafetyMonitor.evaluate (mon : SafetyMonitor) (requested_rate : ℝ) (state : PatientState)
    (dt_minutes : ℝ) : SafetyCheck where
  passed := if 0.1 ≤ mon.finalCeiling requested_rate state dt_minutes then true else false
  max_allowed_rate := mon.finalCeiling requested_rate state dt_minutes
  warnings :=
    mon.preWarnings requested_rate state dt_minutes
      ++ (if mon.cond6 requested_rate state dt_minutes then "EMERGENCY_MIN_RATE " else "")

/-- A call of the `evaluate` member function: the returned `SafetyCheck`
paired with the monitor state after the call.  Under the canonical header
the method touches no mutable member, so the state component is the
receiver itself. -/
def SafetyMonitor.evaluateCall (mon : SafetyMonitor) (requested_rate : ℝ) (state : PatientState)
    (dt_minutes : ℝ) : SafetyCheck × SafetyMonitor :=
  (mon.evaluate requested_rate state dt_minutes, mon)

/-- `SafetyMonitor::update_volume(rate, duration)`: adds `rate * duration`
to the cumulative volume and appends the rate to the ring, evicting the
oldest entry once the ring exceeds 20 entries. -/
def SafetyMonitor.update_volume (mon : SafetyMonitor) (rate_ml_per_min duration_min : ℝ) :
    SafetyMonitor :=
  { mon with
    cumulative_volume_ml := mon.cumulative_volume_ml + rate_ml_per_min * duration_min
    recent_rates :=
      if (mon.recent_rates ++ [rate_ml_per_min]).length > 20
      then (mon.recent_rates ++ [rate_ml_per_min]).tail
      else mon.recent_rates ++ [rate_ml_per_min] }

/-- `SafetyMonitor::reset_24h_counter()`. -/
def SafetyMonitor.reset_24h_counter (mon : SafetyMonitor) : SafetyMonitor :=
  { mon with cumulative_volume_ml := 0 }

/-- `SafetyMonitor::get_cumulative_volume()`. -/
def SafetyMonitor.get_cumulative_volume (mon : SafetyMonitor) : ℝ :=
  mon.cumulative_volume_ml

/-- The persistent fields of `StateEstimator` (`StateEstimator.hpp`): the
bounded histories of derived states and raw telemetry. -/
structure StateEstimator where
  history : List PatientState
  telemetry_history : List Telemetry

/-- `StateEstimator::MAX_HISTORY`. -/
def MAX_HISTORY : ℕ := 50

/-- A freshly constructed `StateEstimator` (both histories empty). -/
def StateEstimator.init : StateEstimator where
  history := []
  telemetry_history := []

/-- `StateEstimator::calculate_coherence` (`StateEstimator.cpp`): signal
quality degraded by plausibility penalties and, with at least 5 prior
telemetry samples, by a heart-rate temporal-noise penalty; clamped to
`[0.1, 1]`. -/
def StateEstimator.calculate_coherence (e : StateEstimator) (m : Telemetry) : ℝ :=
  clamp
    ((m.signal_quality
        * (if m.heart_rate_bpm < 40 ∨ m.heart_rate_bpm > 180 then 0.5 else 1)
        * (if m.temp_celsius < 35 ∨ m.temp_celsius > 40 then 0.7 else 1)
        * (if m.spo2_pct < 85 then 0.6 else 1))
      * (if 5 ≤ e.telemetry_history.length ∧
            (((e.telemetry_history.drop (e.telemetry_history.length - 5)).map
                (fun t => (t.heart_rate_bpm - m.heart_rate_bpm) ^ 2)).sum / 5) > 400
         then 0.7 else 1))
    0.1 1

/-- `StateEstimator::estimate_flow_velocity` (`StateEstimator.cpp`). -/
def estimate_flow_velocity (m : Telemetry) (infusion_rate_ml_min weight_kg : ℝ) : ℝ :=
  clamp
    ((m.cardiac_output_L_min * 1000 / 60 + infusion_rate_ml_min / 60)
      / max 1 (weight_kg * 0.5))
    0.05 40

/-- `StateEstimator::calculate_tissue_efficiency` (`StateEstimator.cpp`). -/
def calculate_tissue_efficiency (m : Telemetry) (params : EnergyTransferParams)
    (perfusion_state : ℝ) : ℝ :=
  clamp
    (params.eta_muscle
      * (if m.spo2_pct < 90 then 1 - clamp ((90 - m.spo2_pct) / 20) 0 0.6 else 1)
      * (0.5 + 0.5 * perfusion_state)
      * (if m.temp_celsius < 36 then 1 - clamp ((36 - m.temp_celsius) / 5) 0 0.4 else 1))
    params.eta_ischemic params.eta_brain_heart

/-- `StateEstimator::calculate_energy_transfer_absolute` (`StateEstimator.cpp`). -/
def calculate_energy_transfer_absolute (m : Telemetry) (params : EnergyTransferParams)
    (infusion_rate_ml_min weight_kg perfusion_state : ℝ) : ℝ :=
  (params.P_baseline + params.P_iv_supplement + params.P_energy_cells
    + infusion_rate_ml_min / 60000 * (params.I_sp_standard * 1000)
        * calculate_tissue_efficiency m params perfusion_state
        * gaussian (estimate_flow_velocity m infusion_rate_ml_min weight_kg)
            params.v_optimal_cm_s params.sigma_velocity)
  / weight_kg

/-- `StateEstimator::calculate_energy_proxy` (`StateEstimator.cpp`): the
normalized weighted sum of the five nonlinear terms, clamped to `[0, 1]`. -/
def calculate_energy_proxy (m : Telemetry) : ℝ :=
  clamp
    (0.30 * sigmoid m.hydration_pct 60 0.1
      + 0.25 * exponential_decay m.blood_loss_idx 3
      + 0.20 * (if m.fatigue_idx < 0.7 then 1 - m.fatigue_idx else 0.3 * (1 - m.fatigue_idx))
      + 0.15 * sigmoid m.spo2_pct 92 0.3
      + 0.10 * exponential_decay (max 0 (m.lactate_mmol - 2)) 0.5)
    0 1

/-- `StateEstimator::calculate_metabolic_load` (`StateEstimator.cpp`). -/
def calculate_metabolic_load (m : Telemetry) : ℝ :=
  clamp
    (0.3 * clamp ((m.heart_rate_bpm - 60) / 100) 0 1
      + 0.25 * (|m.temp_celsius - 37| / 3)
      + 0.25 * clamp (m.lactate_mmol / 10) 0 1
      + 0.2 * m.anxiety_idx)
    0 1

/-- `StateEstimator::calculate_cardiac_reserve` (`StateEstimator.cpp`):
Fox-formula age-predicted maximum heart rate, steep sigmoid falloff near
85% of it, further scaled down for low SpO2; clamped to `[0, 1]`. -/
def calculate_cardiac_reserve (m : Telemetry) (age_years : ℝ) : ℝ :=
  clamp
    ((1 - sigmoid (m.heart_rate_bpm / (220 - age_years)) 0.85 10)
      * clamp (m.spo2_pct / 95) 0.5 1)
    0 1

/-- `StateEstimator::calculate_risk_score` (`StateEstimator.cpp`). -/
def calculate_risk_score (m : Telemetry) (energy_T : ℝ) : ℝ :=
  clamp
    (0.6 * max (max m.blood_loss_idx (clamp ((95 - m.spo2_pct) / 10) 0 1))
          (max 0 ((36 - m.temp_celsius) / 2))
      + 0.3 * (0.4 * clamp ((100 - m.hydration_pct) / 50) 0 1 + 0.6 * (1 - energy_T))
      + 0.1 * max 0 ((m.temp_celsius - 38.5) / 2))
    0 1

/-- The `PatientState` record built by `StateEstimator::estimate`
(`StateEstimator.cpp` lines 158-197), before the history push.  The
formula-based energy proxy is used (the `ENABLE_NEURAL_ESTIMATOR` branch is
the optional plug-in, off by default). -/
def StateEstimator.estimateState (e : StateEstimator) (m : Telemetry)
    (profile : PatientProfile) (current_infusion_rate : ℝ) : PatientState where
  hydration_pct := clamp m.hydration_pct 0 100
  heart_rate_bpm := max 0 m.heart_rate_bpm
  coherence_sigma := e.calculate_coherence m
  energy_T := calculate_energy_proxy m
  energy_T_absolute :=
    calculate_energy_transfer_absolute m profile.energy_params current_infusion_rate
      profile.weight_kg profile.current_tissue_perfusion
  estimated_flow_velocity_cm_s :=
    estimate_flow_velocity m current_infusion_rate profile.weight_kg
  flow_efficiency :=
    gaussian (estimate_flow_velocity m current_infusion_rate profile.weight_kg)
      profile.energy_params.v_optimal_cm_s profile.energy_params.sigma_velocity
  metabolic_load := calculate_metabolic_load m
  cardiac_reserve := calculate_cardiac_reserve m profile.age_years
  risk_score := calculate_risk_score m (calculate_energy_proxy m)
  uncertainty :=
    1 - e.calculate_coherence m * (1 - 0.3 * calculate_metabolic_load m)

/-- The history update at the end of `StateEstimator::estimate`: push both
records, evict the oldest pair once `MAX_HISTORY` is exceeded. -/
def StateEstimator.pushHistory (e : StateEstimator) (m : Telemetry) (st : PatientState) :
    StateEstimator :=
  if (e.history ++ [st]).length > MAX_HISTORY
  then { history := (e.history ++ [st]).tail
         telemetry_history := (e.telemetry_history ++ [m]).tail }
  else { history := e.history ++ [st]
         telemetry_history := e.telemetry_history ++ [m] }

/-- `StateEstimator::estimate`: the returned state paired with the
estimator state after the history push. -/
def StateEstimator.estimate (e : StateEstimator) (m : Telemetry) (profile : PatientProfile)
    (current_infusion_rate : ℝ) : PatientState × StateEstimator :=
  (e.estimateState m profile current_infusion_rate,
   e.pushHistory m (e.estimateState m profile current_infusion_rate))

/-- `StateEstimator::predict_forward(minutes_ahead)` (`StateEstimator.cpp`):
`none` when fewer than 5 history entries exist; otherwise the latest entry
with hydration and energy extrapolated along the 5-sample trend (clamped to
their domains) and uncertainty grown by `0.05` per minute, capped at `1`. -/
def StateEstimator.predict_forward (e : StateEstimator) (minutes_ahead : ℤ) :
    Option PatientState :=
  if e.history.length < 5 then none
  else
    match e.history.getLast? with
    | none => none
    | some back =>
        some { back with
          hydration_pct :=
            clamp (back.hydration_pct
              + (back.hydration_pct
                  - (e.history.getD (e.history.length - 5) back).hydration_pct) / 5
                * (minutes_ahead : ℝ)) 0 100
          energy_T :=
            clamp (back.energy_T
              + (back.energy_T
                  - (e.history.getD (e.history.length - 5) back).energy_T) / 5
                * (minutes_ahead : ℝ)) 0 1
          uncertainty := min 1 (back.uncertainty + 0.05 * (minutes_ahead : ℝ)) }

/-- The persistent fields of `AdaptiveController` (`AdaptiveController.hpp`):
the profile and the last commanded rate (audit only). -/
structure AdaptiveController where
  profile : PatientProfile
  last_command : ℝ

/-- `AdaptiveController::AdaptiveController(prof)`: `last_command`
initialised to `0.4`. -/
def AdaptiveController.init (prof : PatientProfile) : AdaptiveController where
  profile := prof
  last_command := 0.4

/-- `AdaptiveController::calculate_base_rate` (`AdaptiveController.cpp`):
hydration urgency (sigmoid-compressed past a 0.5 deficit), energy need
amplified by metabolic load, scaled by the risk amplifier, clamped to
`[0, 1]` and affine-mapped into `[0.4, 1.8]`. -/
def calculate_base_rate (state : PatientState) : ℝ :=
  0.4 + 1.4 * clamp
    ((0.6 * (if (100 - state.hydration_pct) / 100 < 0.5
              then (100 - state.hydration_pct) / 100
              else sigmoid ((100 - state.hydration_pct) / 100) 0.5 5)
        + 0.4 * ((1 - state.energy_T) * (1 + 0.5 * state.metabolic_load)))
      * (1 + 0.5 * state.risk_score))
    0 1

/-- `AdaptiveController::apply_coherence_modulation`. -/
def apply_coherence_modulation (base_rate : ℝ) (state : PatientState) : ℝ :=
  base_rate * state.coherence_sigma

/-- `AdaptiveController::apply_cardiac_limiting`. -/
def apply_cardiac_limiting (rate : ℝ) (state : PatientState) : ℝ :=
  if state.cardiac_reserve < 0.3
  then rate * (0.5 + 0.5 * sigmoid state.cardiac_reserve 0.3 10)
  else rate

/-- Steps 1-3 of `AdaptiveController::decide`: base rate, the 10-minute
predictive boost (skipped when no forecast is available), coherence
modulation, cardiac limiting. -/
def preClampRate (state : PatientState) (estimator : StateEstimator) : ℝ :=
  apply_cardiac_limiting
    (apply_coherence_modulation
      (match estimator.predict_forward 10 with
       | some predicted =>
           if predicted.hydration_pct < 50
           then calculate_base_rate state * 1.2
           else calculate_base_rate state
       | none => calculate_base_rate state)
      state)
    state

/-- Step 4 of `AdaptiveController::decide`: clamp to
`[0.1, profile.max_safe_infusion_rate]`. -/
def clampedDesired (c : AdaptiveController) (state : PatientState)
    (estimator : StateEstimator) : ℝ :=
  clamp (preClampRate state estimator) 0.1 c.profile.max_safe_infusion_rate

/-- Steps 5-6 of `AdaptiveController::decide`: submit the candidate to
`SafetyMonitor::evaluate` and clamp down to the returned ceiling when the
candidate exceeds it. -/
def finalRate (c : AdaptiveController) (state : PatientState) (safety : SafetyMonitor)
    (estimator : StateEstimator) (dt_minutes : ℝ) : ℝ :=
  if clampedDesired c state estimator
      > (safety.evaluate (clampedDesired c state estimator) state dt_minutes).max_allowed_rate
  then (safety.evaluate (clampedDesired c state estimator) state dt_minutes).max_allowed_rate
  else clampedDesired c state estimator

/-- `AdaptiveController::decide(state, safety, estimator)`
(`AdaptiveController.cpp`): the emitted `ControlOutput` paired with the
controller state after the call (`last_command` updated to the final rate).
`dt_minutes` is the explicit elapsed time forwarded to
`SafetyMonitor::evaluate` per the canonical header. -/
def AdaptiveController.decide (c : AdaptiveController) (state : PatientState)
    (safety : SafetyMonitor) (estimator : StateEstimator) (dt_minutes : ℝ) :
    ControlOutput × AdaptiveController :=
  ({ infusion_ml_per_min := finalRate c state safety estimator dt_minutes
     confidence := 1 - state.uncertainty
     safety_override :=
       !(safety.evaluate (clampedDesired c state estimator) state dt_minutes).passed
     warning_flags :=
       (safety.evaluate (clampedDesired c state estimator) state dt_minutes).warnings },
   { profile := c.profile
     last_command := finalRate c state safety estimator dt_minutes })

/-- The mutable state of the control loop
(`adaptive_iv_therapy_control_system.cpp`, `IVControlSystem`): estimator
and safety-monitor state, controller state, and the current infusion rate
fed back into the next estimate. -/
structure LoopState where
  estimator : StateEstimator
  safety : SafetyMonitor
  controller : AdaptiveController
  current_infusion_rate : ℝ

/-- The loop state at system construction: empty histories, fresh safety
monitor, `current_infusion_rate = 0.4`. -/
def initLoop (prof : PatientProfile) : LoopState where
  estimator := StateEstimator.init
  safety := SafetyMonitor.init prof
  controller := AdaptiveController.init prof
  current_infusion_rate := 0.4

/-- The derived state of step 2 of one loop iteration. -/
def tickState (s : LoopState) (m : Telemetry) : PatientState :=
  s.estimator.estimateState m s.controller.profile s.current_infusion_rate

/-- The estimator state after step 2 of one loop iteration. -/
def tickEst (s : LoopState) (m : Telemetry) : StateEstimator :=
  s.estimator.pushHistory m (tickState s m)

/-- The command emitted by step 3 of one loop iteration. -/
def tickCommand (s : LoopState) (m : Telemetry) (dt_minutes : ℝ) : ControlOutput :=
  (s.controller.decide (tickState s m) s.safety (tickEst s m) dt_minutes).1

/-- One iteration of the control loop (`IVControlSystem::start`): acquire
telemetry `m`, estimate, decide, store the commanded rate, and update the
safety monitor's volume bookkeeping with the commanded rate over the cycle
duration. -/
def tick (s : LoopState) (m : Telemetry) (dt_minutes : ℝ) : ControlOutput × LoopState :=
  (tickCommand s m dt_minutes,
   { estimator := tickEst s m
     safety :=
       s.safety.update_volume (tickCommand s m dt_minutes).infusion_ml_per_min dt_minutes
     controller := (s.controller.decide (tickState s m) s.safety (tickEst s m) dt_minutes).2
     current_infusion_rate := (tickCommand s m dt_minutes).infusion_ml_per_min })

/-- The loop states reachable from system construction under arbitrary
per-tick telemetry and cycle durations. -/
inductive Reachable (prof : PatientProfile) : LoopState → Prop
  | init : Reachable prof (initLoop prof)
  | step (s : LoopState) (m : Telemetry) (dt_minutes : ℝ) :
      Reachable prof s → Reachable prof (tick s m dt_minutes).2

/-- A sequence of `update_volume` calls, applied in order. -/
def applyUpdates (mon : SafetyMonitor) (calls : List (ℝ × ℝ)) : SafetyMonitor :=
  calls.foldl (fun acc c => acc.update_volume c.1 c.2) mon

/-- A concrete session profile: 70 kg, 40 years, no cardiac condition, no
renal impairment, baseline 70 bpm, maximum safe rate 1.5 ml/min, default
energy-transfer parameters, full perfusion. -/
def profile0 : PatientProfile where
  weight_kg := 70
  age_years := 40
  cardiac_condition := false
  renal_impairment := false
  diabetes := false
  baseline_hr_bpm := 70
  max_safe_infusion_rate := 1.5
  energy_params := EnergyTransferParams.default
  current_tissue_perfusion := 1

/-- Telemetry of a moderately dehydrated, bleeding, exhausted patient with
clean sensors: drives the commanded rate to the high-risk ceiling 0.6. -/
def telemA : Telemetry where
  hydration_pct := 55
  heart_rate_bpm := 70
  temp_celsius := 37
  blood_loss_idx := 1
  fatigue_idx := 1
  anxiety_idx := 0
  signal_quality := 1
  spo2_pct := 85
  lactate_mmol := 20
  cardiac_output_L_min := 5

/-- Telemetry of a healthy patient whose sensors have gone silent
(`signal_quality = 0`): coherence collapses to the 0.1 floor and the
commanded rate falls to the 0.1 minimum in one tick. -/
def telemB : Telemetry where
  hydration_pct := 80
  heart_rate_bpm := 70
  temp_celsius := 37
  blood_loss_idx := 0
  fatigue_idx := 0
  anxiety_idx := 0
  signal_quality := 0
  spo2_pct := 98
  lactate_mmol := 0
  cardiac_output_L_min := 5

/-- Telemetry with hydration 80, heart rate 75 and full signal quality but
severely hypothermic and hypoxic side channels. -/
def telemC : Telemetry where
  hydration_pct := 80
  heart_rate_bpm := 75
  temp_celsius := 20
  blood_loss_idx := 0
  fatigue_idx := 0
  anxiety_idx := 0
  signal_quality := 1
  spo2_pct := 50
  lactate_mmol := 0
  cardiac_output_L_min := 5

/-- Healthy nominal telemetry: hydration 80, heart rate 75, full signal
quality, normothermic, well oxygenated. -/
def telemH : Telemetry where
  hydration_pct := 80
  heart_rate_bpm := 75
  temp_celsius := 37
  blood_loss_idx := 0
  fatigue_idx := 0
  anxiety_idx := 0
  signal_quality := 1
  spo2_pct := 98
  lactate_mmol := 0
  cardiac_output_L_min := 5

/-- A concrete derived state with every field `0.5`, used as a history
entry. -/
def stA : PatientState where
  hydration_pct := 0.5
  heart_rate_bpm := 0.5
  coherence_sigma := 0.5
  energy_T := 0.5
  energy_T_absolute := 0.5
  metabolic_load := 0.5
  cardiac_reserve := 0.5
  risk_score := 0.5
  estimated_flow_velocity_cm_s := 0.5
  flow_efficiency := 0.5
  uncertainty := 0.5

/-- An estimator state holding exactly five history entries. -/
def est5 : StateEstimator where
  history := [stA, stA, stA, stA, stA]
  telemetry_history := [telemH, telemH, telemH, telemH, telemH]

/-- The forecast `predict_forward` produces from `est5` ten minutes ahead:
flat trends, uncertainty grown by `0.05 * 10` and capped at `1`. -/
def stB : PatientState :=
  { stA with uncertainty := 1 }

/-- A session profile with a zero-width velocity tolerance band. -/
def profileZ : PatientProfile :=
  { profile0 with energy_params := { EnergyTransferParams.default with sigma_velocity := 0 } }

/-- The per-cycle ring and profile invariant maintained by the control
loop: both components carry the session profile, and every rate recorded in
the safety monitor's ring was a commanded rate, hence lies in
`[0.1, max_safe_infusion_rate]`. -/
def RatesOK (prof : PatientProfile) (s : LoopState) : Prop :=
  s.safety.profile = prof ∧ s.controller.profile = prof ∧
    ∀ r ∈ s.safety.recent_rates, 0.1 ≤ r ∧ r ≤ prof.max_safe_infusion_rate

/-- The loop state after one tick on `telemA` from construction. -/
def loop1 : LoopState := (tick (initLoop profile0) telemA (1/300)).2

end

theorem le_clamp_left (v lo hi : ℝ) : lo ≤ clamp v lo hi := le_max_left _ _

theorem clamp_le_right (v lo hi : ℝ) (h : lo ≤ hi) : clamp v lo hi ≤ hi :=
  max_le h (min_le_right _ _)

theorem clamp_le_max (v lo hi : ℝ) : clamp v lo hi ≤ max lo v :=
  max_le (le_max_left _ _) ((min_le_left _ _).trans (le_max_right _ _))

theorem min_le_clamp (v lo hi : ℝ) : min v hi ≤ clamp v lo hi := le_max_right _ _

theorem clamp_of_mem (v lo hi : ℝ) (h1 : lo ≤ v) (h2 : v ≤ hi) : clamp v lo hi = v := by
  unfold clamp
  rw [min_eq_left h2, max_eq_right h1]

theorem clamp_le_of_le (v lo hi b : ℝ) (hlo : lo ≤ b) (hv : v ≤ b) : clamp v lo hi ≤ b :=
  (clamp_le_max v lo hi).trans (max_le hlo hv)

theorem le_clamp_of_le (v lo hi b : ℝ) (hv : b ≤ v) (hhi : b ≤ hi) : b ≤ clamp v lo hi :=
  (le_min hv hhi).trans (min_le_clamp v lo hi)

theorem sigmoid_pos (x c k : ℝ) : 0 < sigmoid x c k := by
  unfold sigmoid
  positivity

theorem sigmoid_lt_one (x c k : ℝ) : sigmoid x c k < 1 := by
  unfold sigmoid
  rw [div_lt_one (by positivity)]
  nlinarith [Real.exp_pos (-k * (x - c))]

theorem sigmoid_le_of_nonneg (x c k : ℝ) (h : 0 ≤ k * (c - x)) :
    sigmoid x c k ≤ 1 / (2 + k * (c - x)) := by
  unfold sigmoid
  have he : k * (c - x) + 1 ≤ Real.exp (-k * (x - c)) := by
    have : -k * (x - c) = k * (c - x) := by ring
    rw [this]
    exact Real.add_one_le_exp _
  have hd : 0 < 2 + k * (c - x) := by linarith
  apply one_div_le_one_div_of_le hd
  linarith

theorem exp_decay_le (x r : ℝ) (h : 0 ≤ r * x) :
    exponential_decay x r ≤ 1 / (1 + r * x) := by
  unfold exponential_decay
  have he : r * x + 1 ≤ Real.exp (r * x) := Real.add_one_le_exp _
  have hp : 0 < 1 + r * x := by linarith
  have hneg : -r * x = -(r * x) := by ring
  rw [hneg, Real.exp_neg, ← one_div]
  apply one_div_le_one_div_of_le hp
  linarith

theorem exp_decay_pos (x r : ℝ) : 0 < exponential_decay x r := Real.exp_pos _

theorem coherence_mem (e : StateEstimator) (m : Telemetry) :
    0.1 ≤ e.calculate_coherence m ∧ e.calculate_coherence m ≤ 1 :=
  ⟨le_clamp_left _ _ _, clamp_le_right _ _ _ (by norm_num)⟩

theorem metabolic_mem (m : Telemetry) :
    0 ≤ calculate_metabolic_load m ∧ calculate_metabolic_load m ≤ 1 :=
  ⟨le_clamp_left _ _ _, clamp_le_right _ _ _ zero_le_one⟩

theorem energy_mem (m : Telemetry) :
    0 ≤ calculate_energy_proxy m ∧ calculate_energy_proxy m ≤ 1 :=
  ⟨le_clamp_left _ _ _, clamp_le_right _ _ _ zero_le_one⟩

theorem reserve_mem (m : Telemetry) (a : ℝ) :
    0 ≤ calculate_cardiac_reserve m a ∧ calculate_cardiac_reserve m a ≤ 1 :=
  ⟨le_clamp_left _ _ _, clamp_le_right _ _ _ zero_le_one⟩

theorem risk_mem (m : Telemetry) (eT : ℝ) :
    0 ≤ calculate_risk_score m eT ∧ calculate_risk_score m eT ≤ 1 :=
  ⟨le_clamp_left _ _ _, clamp_le_right _ _ _ zero_le_one⟩

/-- C4: for every telemetry input (including out-of-range values in every
channel), every estimator state, profile and infusion rate, the
`PatientState` returned by `StateEstimator::estimate` satisfies all
declared bounds: hydration in `[0,100]`, heart rate `≥ 0`, coherence in
`[0.1,1]`, energy in `[0,1]`, metabolic load in `[0,1]`, cardiac reserve in
`[0,1]`, risk score in `[0,1]`, and uncertainty in `[0,1]`. -/
theorem estimate_fields_within_bounds (e : StateEstimator) (m : Telemetry)
    (p : PatientProfile) (rate : ℝ) :
    (0 ≤ (e.estimate m p rate).1.hydration_pct ∧ (e.estimate m p rate).1.hydration_pct ≤ 100) ∧
    0 ≤ (e.estimate m p rate).1.heart_rate_bpm ∧
    (0.1 ≤ (e.estimate m p rate).1.coherence_sigma ∧
      (e.estimate m p rate).1.coherence_sigma ≤ 1) ∧
    (0 ≤ (e.estimate m p rate).1.energy_T ∧ (e.estimate m p rate).1.energy_T ≤ 1) ∧
    (0 ≤ (e.estimate m p rate).1.metabolic_load ∧ (e.estimate m p rate).1.metabolic_load ≤ 1) ∧
    (0 ≤ (e.estimate m p rate).1.cardiac_reserve ∧ (e.estimate m p rate).1.cardiac_reserve ≤ 1) ∧
    (0 ≤ (e.estimate m p rate).1.risk_score ∧ (e.estimate m p rate).1.risk_score ≤ 1) ∧
    (0 ≤ (e.estimate m p rate).1.uncertainty ∧ (e.estimate m p rate).1.uncertainty ≤ 1) := by
  simp only [StateEstimator.estimate, StateEstimator.estimateState]
  refine ⟨⟨le_clamp_left _ _ _, clamp_le_right _ _ _ (by norm_num)⟩,
    le_max_left _ _,
    coherence_mem e m, energy_mem m, metabolic_mem m, reserve_mem m _, risk_mem m _, ?_, ?_⟩
  · obtain ⟨hc1, hc2⟩ := coherence_mem e m
    obtain ⟨hm1, hm2⟩ := metabolic_mem m
    nlinarith
  · obtain ⟨hc1, hc2⟩ := coherence_mem e m
    obtain ⟨hm1, hm2⟩ := metabolic_mem m
    nlinarith

/-- C3: for every monitor state, requested rate, patient state and elapsed
time, (a) the returned `passed` flag is `true` iff the final
`max_allowed_rate` is at least the 0.1 minimum safe rate, and (b) the
emergency-floor override — `max_allowed_rate` set to exactly `0.1` with the
`EMERGENCY_MIN_RATE` token appended to the warnings of checks 1-5 — occurs
iff the running-minimum ceiling after checks 1-5 is below `0.1` and
hydration is below 50%. -/
theorem evaluate_passed_iff_and_emergency_iff (mon : SafetyMonitor) (req : ℝ)
    (st : PatientState) (dt : ℝ) :
    ((mon.evaluate req st dt).passed = true ↔
      0.1 ≤ (mon.evaluate req st dt).max_allowed_rate) ∧
    ((mon.preCeiling req st dt < 0.1 ∧ st.hydration_pct < 50) ↔
      ((mon.evaluate req st dt).max_allowed_rate = 0.1 ∧
        (mon.evaluate req st dt).warnings
          = mon.preWarnings req st dt ++ "EMERGENCY_MIN_RATE ")) := by
  constructor
  · simp only [SafetyMonitor.evaluate]
    split_ifs with h <;> simp [h]
  · constructor
    · intro h
      simp only [SafetyMonitor.evaluate, SafetyMonitor.finalCeiling]
      rw [if_pos h, if_pos h]
      exact ⟨rfl, rfl⟩
    · intro ⟨hrate, hwarn⟩
      by_contra hfire
      simp only [SafetyMonitor.evaluate, SafetyMonitor.finalCeiling, if_neg hfire] at hrate hwarn
      have hlen := congrArg String.length hwarn
      rw [String.length_append, String.length_append] at hlen
      have : ("" : String).length ≠ ("EMERGENCY_MIN_RATE " : String).length := by decide
      exact this (by omega)

/-- C5: two successive calls of `evaluate` with identical requested rate,
patient state and elapsed time, with no intervening `update_volume`, return
identical `SafetyCheck` results: the second call runs on the monitor state
returned by the first call and produces the same record (same `passed`
flag, same `max_allowed_rate`, same `warnings` string). -/
theorem evaluate_idempotent (mon : SafetyMonitor) (req : ℝ) (st : PatientState) (dt : ℝ) :
    ((mon.evaluateCall req st dt).2.evaluateCall req st dt).1
      = (mon.evaluateCall req st dt).1 := rfl

/-- C10: `evaluate` leaves the monitor state (cumulative volume, ring of
recent rates, derived 24h ceiling) unchanged; `update_volume` adds
`rate * duration` to the cumulative volume and appends the rate to the ring
(evicting the oldest entry past 20) while leaving the ceiling unchanged;
`reset_24h_counter` zeroes the cumulative volume while leaving the ring and
the ceiling unchanged. -/
theorem monitor_frame_conditions (mon : SafetyMonitor) (req : ℝ) (st : PatientState)
    (dt rate dur : ℝ) :
    (mon.evaluateCall req st dt).2 = mon ∧
    ((mon.update_volume rate dur).cumulative_volume_ml
        = mon.cumulative_volume_ml + rate * dur ∧
      (mon.update_volume rate dur).recent_rates
        = (if (mon.recent_rates ++ [rate]).length > 20
           then (mon.recent_rates ++ [rate]).tail
           else mon.recent_rates ++ [rate]) ∧
      (mon.update_volume rate dur).max_volume_24h_ml = mon.max_volume_24h_ml) ∧
    ((mon.reset_24h_counter).cumulative_volume_ml = 0 ∧
      (mon.reset_24h_counter).recent_rates = mon.recent_rates ∧
      (mon.reset_24h_counter).max_volume_24h_ml = mon.max_volume_24h_ml) :=
  ⟨rfl, ⟨rfl, rfl, rfl⟩, rfl, rfl, rfl⟩

/-- C8: the guarded Gaussian helper returns `0` for a degenerate tolerance
band `sigma ≤ 0` instead of dividing by zero, so for a profile with a
zero-width velocity tolerance the estimated `flow_efficiency` is `0` and
the absolute energy-transfer estimate degenerates to the input power over
weight — both well-defined. -/
theorem gaussian_zero_width_guard (x c s : ℝ) (hs : s ≤ 0) (e : StateEstimator)
    (m : Telemetry) (p : PatientProfile) (rate : ℝ)
    (hp : p.energy_params.sigma_velocity ≤ 0) :
    gaussian x c s = 0 ∧
    (e.estimate m p rate).1.flow_efficiency = 0 ∧
    (e.estimate m p rate).1.energy_T_absolute
      = (p.energy_params.P_baseline + p.energy_params.P_iv_supplement
          + p.energy_params.P_energy_cells) / p.weight_kg := by
  refine ⟨by rw [gaussian, if_pos hs], ?_, ?_⟩
  · simp only [StateEstimator.estimate, StateEstimator.estimateState]
    rw [gaussian, if_pos hp]
  · simp only [StateEstimator.estimate, StateEstimator.estimateState,
      calculate_energy_transfer_absolute]
    rw [gaussian, if_pos hp]
    ring_nf

/-- Witness for C8 at `sigma = 0` and the zero-tolerance profile. -/
theorem gaussian_zero_width_guard_witness :
    gaussian 1 20 0 = 0 ∧
    (StateEstimator.init.estimate telemH profileZ 0.4).1.flow_efficiency = 0 ∧
    (StateEstimator.init.estimate telemH profileZ 0.4).1.energy_T_absolute
      = (profileZ.energy_params.P_baseline + profileZ.energy_params.P_iv_supplement
          + profileZ.energy_params.P_energy_cells) / profileZ.weight_kg :=
  gaussian_zero_width_guard 1 20 0 (by norm_num) StateEstimator.init telemH profileZ 0.4
    (by norm_num [profileZ])

theorem update_volume_mono (mon : SafetyMonitor) (r d : ℝ) (hr : 0 ≤ r) (hd : 0 ≤ d) :
    mon.get_cumulative_volume ≤ (mon.update_volume r d).get_cumulative_volume := by
  simp only [SafetyMonitor.get_cumulative_volume, SafetyMonitor.update_volume]
  nlinarith

/-- C6 counterexample: a single `update_volume` call with a negative rate
strictly decreases the cumulative volume, so with arbitrary real arguments
the cumulative volume is not non-decreasing. -/
theorem cumulative_volume_decreases_counterexample :
    ((SafetyMonitor.init profile0).update_volume (-1) 1).get_cumulative_volume
      < (SafetyMonitor.init profile0).get_cumulative_volume := by
  simp only [SafetyMonitor.get_cumulative_volume, SafetyMonitor.update_volume,
    SafetyMonitor.init]
  norm_num

/-- C6 (amended): across any sequence of `update_volume` calls whose rate
and duration arguments are nonnegative — as every call issued by the
control loop is — the cumulative volume is non-decreasing, and
`reset_24h_counter` sets it back to zero. -/
theorem cumulative_volume_monotone_nonneg (mon : SafetyMonitor) (calls : List (ℝ × ℝ))
    (h : ∀ c ∈ calls, 0 ≤ c.1 ∧ 0 ≤ c.2) :
    mon.get_cumulative_volume ≤ (applyUpdates mon calls).get_cumulative_volume ∧
    (mon.reset_24h_counter).get_cumulative_volume = 0 := by
  refine ⟨?_, rfl⟩
  induction calls generalizing mon with
  | nil => exact le_refl _
  | cons c rest ih =>
    have h1 := h c (List.mem_cons_self c rest)
    have step := update_volume_mono mon c.1 c.2 h1.1 h1.2
    have tail := ih (mon.update_volume c.1 c.2) (fun x hx => h x (List.mem_cons_of_mem _ hx))
    simp only [applyUpdates, List.foldl_cons] at tail ⊢
    exact le_trans step tail

/-- Witness for C6 (amended) on a two-call sequence with nonnegative
arguments. -/
theorem cumulative_volume_monotone_nonneg_witness :
    (SafetyMonitor.init profile0).get_cumulative_volume
      ≤ (applyUpdates (SafetyMonitor.init profile0) [(1, 2), (3, 4)]).get_cumulative_volume ∧
    ((SafetyMonitor.init profile0).reset_24h_counter).get_cumulative_volume = 0 :=
  cumulative_volume_monotone_nonneg (SafetyMonitor.init profile0) [(1, 2), (3, 4)]
    (by intro c hc; simp at hc; rcases hc with h | h <;> rw [h] <;> norm_num)

/-- C7 counterexample: with five history entries of uncertainty `0.5`, a
call with negative `minutes_ahead = -10` returns a forecast whose
uncertainty `0` is strictly below the most recent entry's `0.5`. -/
theorem predict_forward_uncertainty_counterexample :
    est5.history.getLast? = some stA ∧
    est5.predict_forward (-10) = some { stA with uncertainty := 0 } ∧
    ({ stA with uncertainty := 0 } : PatientState).uncertainty < stA.uncertainty := by
  refine ⟨rfl, ?_, by norm_num [stA]⟩
  show (if (5:ℕ) < 5 then none else _) = _
  rw [if_neg (by norm_num)]
  show some _ = some _
  congr 1
  simp only [est5, stA]
  norm_num [clamp]

/-- C7 (amended): `predict_forward` returns no value iff the history holds
fewer than 5 entries; and for a nonnegative `minutes_ahead`, whenever the
most recent history entry has uncertainty at most 1 (as every entry
produced by `estimate` does), the returned forecast's uncertainty is at
least that entry's uncertainty. -/
theorem predict_forward_none_iff_uncertainty_monotone (e : StateEstimator) (k : ℤ) :
    (e.predict_forward k = none ↔ e.history.length < 5) ∧
    (∀ back st, 0 ≤ k → e.history.getLast? = some back → back.uncertainty ≤ 1 →
      e.predict_forward k = some st → back.uncertainty ≤ st.uncertainty) := by
  constructor
  · unfold StateEstimator.predict_forward
    split_ifs with h5
    · simp [h5]
    · cases hl : e.history.getLast? with
      | none =>
        rw [List.getLast?_eq_none_iff] at hl
        rw [hl] at h5
        simp at h5
      | some back => simp [h5]
  · intro back st hk hb hu hsome
    unfold StateEstimator.predict_forward at hsome
    split_ifs at hsome with h5
    rw [hb] at hsome
    have hst := Option.some.inj hsome
    have huval : st.uncertainty = min 1 (back.uncertainty + 0.05 * (k : ℝ)) := by
      rw [← hst]
    rw [huval]
    have hk' : (0:ℝ) ≤ (k : ℝ) := Int.cast_nonneg.mpr hk
    exact le_min hu (by nlinarith)

/-- Witness for C7 (amended) at `est5` and `minutes_ahead = 10`. -/
theorem predict_forward_none_iff_uncertainty_monotone_witness :
    (est5.predict_forward 10 = none ↔ est5.history.length < 5) ∧
    stA.uncertainty ≤ stB.uncertainty := by
  constructor
  · exact (predict_forward_none_iff_uncertainty_monotone est5 10).1
  · refine (predict_forward_none_iff_uncertainty_monotone est5 10).2 stA stB (by norm_num)
      rfl (by norm_num [stA]) ?_
    show (if (5:ℕ) < 5 then none else _) = _
    rw [if_neg (by norm_num)]
    show some _ = some _
    congr 1
    simp only [est5, stA, stB]
    norm_num [clamp]

/-- C9 counterexample: `telemC` has hydration 80, heart rate 75 and full
signal quality, but its hypothermic and hypoxic side channels drive the
coherence penalties and the metabolic load, so the returned uncertainty is
`0.706`, not below `0.5`. -/
theorem estimate_nominal_counterexample :
    telemC.hydration_pct = 80 ∧ telemC.heart_rate_bpm = 75 ∧ telemC.signal_quality = 1 ∧
    ¬ ((StateEstimator.init.estimate telemC profile0 0.4).1.uncertainty < 0.5) := by
  refine ⟨rfl, rfl, rfl, ?_⟩
  simp only [StateEstimator.estimate, StateEstimator.estimateState,
    StateEstimator.calculate_coherence, calculate_metabolic_load, StateEstimator.init, telemC]
  norm_num [clamp, min_def, max_def]

/-- C9 (amended): for telemetry with hydration 80, heart rate 75 and
signal quality 1 whose plausibility channels trigger no coherence penalty
(temperature within [35,40], SpO2 at least 85, fewer than 5 prior telemetry
samples), `estimate` returns hydration within 0.1 of 80 (exactly 80), heart
rate exactly 75, and uncertainty strictly below 0.5. -/
theorem estimate_nominal_accuracy (e : StateEstimator) (m : Telemetry) (p : PatientProfile)
    (rate : ℝ) (hh : m.hydration_pct = 80) (hr : m.heart_rate_bpm = 75)
    (hq : m.signal_quality = 1) (ht1 : 35 ≤ m.temp_celsius) (ht2 : m.temp_celsius ≤ 40)
    (ho : 85 ≤ m.spo2_pct) (hhist : e.telemetry_history.length < 5) :
    |(e.estimate m p rate).1.hydration_pct - 80| ≤ 0.1 ∧
    (e.estimate m p rate).1.heart_rate_bpm = 75 ∧
    (e.estimate m p rate).1.uncertainty < 0.5 := by
  have hA : ¬(m.heart_rate_bpm < 40 ∨ m.heart_rate_bpm > 180) := by rw [hr]; norm_num
  have hB : ¬(m.temp_celsius < 35 ∨ m.temp_celsius > 40) := by
    push_neg
    exact ⟨ht1, ht2⟩
  have hC : ¬(m.spo2_pct < 85) := not_lt.mpr ho
  have hD : ¬(5 ≤ e.telemetry_history.length ∧
      ((e.telemetry_history.drop (e.telemetry_history.length - 5)).map
        (fun t => (t.heart_rate_bpm - m.heart_rate_bpm) ^ 2)).sum / 5 > 400) :=
    fun hcontra => absurd hcontra.1 (by omega)
  have hcoh : e.calculate_coherence m = 1 := by
    unfold StateEstimator.calculate_coherence
    rw [if_neg hA, if_neg hB, if_neg hC, if_neg hD, hq]
    norm_num [clamp, min_def, max_def]
  refine ⟨?_, ?_, ?_⟩
  · show |clamp m.hydration_pct 0 100 - 80| ≤ 0.1
    rw [hh, clamp_of_mem 80 0 100 (by norm_num) (by norm_num)]
    norm_num
  · show max 0 m.heart_rate_bpm = 75
    rw [hr]
    norm_num
  · show 1 - e.calculate_coherence m * (1 - 0.3 * calculate_metabolic_load m) < 0.5
    rw [hcoh]
    have := metabolic_mem m
    nlinarith [this.1, this.2]

/-- Witness for C9 (amended) on healthy nominal telemetry. -/
theorem estimate_nominal_accuracy_witness :
    |(StateEstimator.init.estimate telemH profile0 0.4).1.hydration_pct - 80| ≤ 0.1 ∧
    (StateEstimator.init.estimate telemH profile0 0.4).1.heart_rate_bpm = 75 ∧
    (StateEstimator.init.estimate telemH profile0 0.4).1.uncertainty < 0.5 :=
  estimate_nominal_accuracy StateEstimator.init telemH profile0 0.4 rfl rfl rfl
    (by norm_num [telemH]) (by norm_num [telemH]) (by norm_num [telemH])
    (by simp [StateEstimator.init])

theorem ceil1_ge (mon : SafetyMonitor) (req dt : ℝ)
    (hmax : 0.1 ≤ mon.profile.max_safe_infusion_rate) : 0.1 ≤ mon.ceil1 req dt := by
  unfold SafetyMonitor.ceil1
  split_ifs
  · exact le_min hmax (by norm_num)
  · exact hmax

theorem ceil2_ge (mon : SafetyMonitor) (req : ℝ) (st : PatientState) (dt : ℝ)
    (hmax : 0.1 ≤ mon.profile.max_safe_infusion_rate) : 0.1 ≤ mon.ceil2 req st dt := by
  unfold SafetyMonitor.ceil2
  split_ifs
  · exact le_min (ceil1_ge mon req dt hmax) (by norm_num)
  · exact ceil1_ge mon req dt hmax

theorem ceil3_ge (mon : SafetyMonitor) (req : ℝ) (st : PatientState) (dt : ℝ)
    (hmax : 0.1 ≤ mon.profile.max_safe_infusion_rate)
    (hrates : ∀ r ∈ mon.recent_rates, 0.1 ≤ r) (hreq : 0.1 ≤ req) :
    0.1 ≤ mon.ceil3 req st dt := by
  unfold SafetyMonitor.ceil3
  cases hl : mon.recent_rates.getLast? with
  | none => exact ceil2_ge mon req st dt hmax
  | some last =>
    have hlast : 0.1 ≤ last := hrates last (List.mem_of_mem_getLast? hl)
    show 0.1 ≤ if |req - last| > MAX_RATE_CHANGE
      then min (mon.ceil2 req st dt) (limitedRate req last)
      else mon.ceil2 req st dt
    split_ifs with habs
    · refine le_min (ceil2_ge mon req st dt hmax) ?_
      unfold limitedRate MAX_RATE_CHANGE
      split_ifs with hdir
      · linarith
      · push_neg at hdir
        have habs' : |req - last| = last - req := by
          rw [abs_of_nonpos (by linarith)]
          ring
        rw [habs'] at habs
        unfold MAX_RATE_CHANGE at habs
        linarith
    · exact ceil2_ge mon req st dt hmax

theorem ceil4_ge (mon : SafetyMonitor) (req : ℝ) (st : PatientState) (dt : ℝ)
    (hmax : 0.1 ≤ mon.profile.max_safe_infusion_rate)
    (hrates : ∀ r ∈ mon.recent_rates, 0.1 ≤ r) (hreq : 0.1 ≤ req) :
    0.1 ≤ mon.ceil4 req st dt := by
  unfold SafetyMonitor.ceil4
  split_ifs
  · exact le_min (ceil3_ge mon req st dt hmax hrates hreq) (by norm_num)
  · exact ceil3_ge mon req st dt hmax hrates hreq

theorem preCeiling_ge (mon : SafetyMonitor) (req : ℝ) (st : PatientState) (dt : ℝ)
    (hmax : 0.1 ≤ mon.profile.max_safe_infusion_rate)
    (hrates : ∀ r ∈ mon.recent_rates, 0.1 ≤ r) (hreq : 0.1 ≤ req) :
    0.1 ≤ mon.preCeiling req st dt := by
  unfold SafetyMonitor.preCeiling
  split_ifs
  · exact le_min (ceil4_ge mon req st dt hmax hrates hreq) (by norm_num)
  · exact ceil4_ge mon req st dt hmax hrates hreq

theorem finalCeiling_ge (mon : SafetyMonitor) (req : ℝ) (st : PatientState) (dt : ℝ)
    (hmax : 0.1 ≤ mon.profile.max_safe_infusion_rate)
    (hrates : ∀ r ∈ mon.recent_rates, 0.1 ≤ r) (hreq : 0.1 ≤ req) :
    0.1 ≤ mon.finalCeiling req st dt := by
  unfold SafetyMonitor.finalCeiling
  split_ifs
  · exact le_refl _
  · exact preCeiling_ge mon req st dt hmax hrates hreq

theorem ceil4_le_ceil3 (mon : SafetyMonitor) (req : ℝ) (st : PatientState) (dt : ℝ) :
    mon.ceil4 req st dt ≤ mon.ceil3 req st dt := by
  unfold SafetyMonitor.ceil4
  split_ifs
  · exact min_le_left _ _
  · exact le_refl _

theorem preCeiling_le_ceil4 (mon : SafetyMonitor) (req : ℝ) (st : PatientState) (dt : ℝ) :
    mon.preCeiling req st dt ≤ mon.ceil4 req st dt := by
  unfold SafetyMonitor.preCeiling
  split_ifs
  · exact min_le_left _ _
  · exact le_refl _

theorem clampedDesired_mem (c : AdaptiveController) (st : PatientState) (est : StateEstimator)
    (hmax : 0.1 ≤ c.profile.max_safe_infusion_rate) :
    0.1 ≤ clampedDesired c st est ∧
    clampedDesired c st est ≤ c.profile.max_safe_infusion_rate :=
  ⟨le_clamp_left _ _ _, clamp_le_right _ _ _ hmax⟩

theorem finalRate_mem (c : AdaptiveController) (st : PatientState) (safety : SafetyMonitor)
    (est : StateEstimator) (dt : ℝ) (hprof : safety.profile = c.profile)
    (hmax : 0.1 ≤ c.profile.max_safe_infusion_rate)
    (hrates : ∀ r ∈ safety.recent_rates, 0.1 ≤ r) :
    0.1 ≤ finalRate c st safety est dt ∧
    finalRate c st safety est dt ≤ c.profile.max_safe_infusion_rate := by
  have hd := clampedDesired_mem c st est hmax
  have hceil : 0.1 ≤ (safety.evaluate (clampedDesired c st est) st dt).max_allowed_rate := by
    show 0.1 ≤ safety.finalCeiling (clampedDesired c st est) st dt
    exact finalCeiling_ge safety _ st dt (hprof ▸ hmax) hrates hd.1
  unfold finalRate
  split_ifs with h
  · exact ⟨hceil, le_trans (le_of_lt h) hd.2⟩
  · exact hd

theorem tickCommand_mem (prof : PatientProfile) (s : LoopState) (m : Telemetry) (dt : ℝ)
    (hmax : 0.1 ≤ prof.max_safe_infusion_rate) (hOK : RatesOK prof s) :
    0.1 ≤ (tickCommand s m dt).infusion_ml_per_min ∧
    (tickCommand s m dt).infusion_ml_per_min ≤ prof.max_safe_infusion_rate := by
  obtain ⟨hsp, hcp, hr⟩ := hOK
  have hb := finalRate_mem s.controller (tickState s m) s.safety (tickEst s m) dt
    (by rw [hsp, hcp]) (by rw [hcp]; exact hmax) (fun r hrm => (hr r hrm).1)
  rw [hcp] at hb
  exact hb

theorem update_volume_getLast (mon : SafetyMonitor) (r d : ℝ) :
    (mon.update_volume r d).recent_rates.getLast? = some r := by
  simp only [SafetyMonitor.update_volume]
  split_ifs with h
  · cases hm : mon.recent_rates with
    | nil =>
      rw [hm] at h
      simp at h
    | cons a t =>
      show (t ++ [r]).getLast? = some r
      exact List.getLast?_concat _
  · exact List.getLast?_concat _

theorem ratesOK_tick (prof : PatientProfile) (s : LoopState) (m : Telemetry) (dt : ℝ)
    (hmax : 0.1 ≤ prof.max_safe_infusion_rate) (hOK : RatesOK prof s) :
    RatesOK prof (tick s m dt).2 := by
  have hcmd := tickCommand_mem prof s m dt hmax hOK
  obtain ⟨hsp, hcp, hr⟩ := hOK
  refine ⟨?_, ?_, ?_⟩
  · show (s.safety.update_volume (tickCommand s m dt).infusion_ml_per_min dt).profile = prof
    simpa only [SafetyMonitor.update_volume] using hsp
  · exact hcp
  · intro r hrm
    have hmem : r ∈ s.safety.recent_rates
        ++ [(tickCommand s m dt).infusion_ml_per_min] := by
      have hrm' : r ∈ (s.safety.update_volume
          (tickCommand s m dt).infusion_ml_per_min dt).recent_rates := hrm
      simp only [SafetyMonitor.update_volume] at hrm'
      split_ifs at hrm' with hlen
      · exact List.tail_subset _ hrm'
      · exact hrm'
    rcases List.mem_append.mp hmem with h | h
    · exact hr r h
    · rw [List.mem_singleton] at h
      rw [h]
      exact hcmd

theorem reachable_ratesOK (prof : PatientProfile) (hmax : 0.1 ≤ prof.max_safe_infusion_rate)
    (s : LoopState) (hs : Reachable prof s) : RatesOK prof s := by
  induction hs with
  | init =>
    refine ⟨rfl, rfl, ?_⟩
    intro r hrm
    exact absurd hrm (List.not_mem_nil r)
  | step s m dt hstep ih => exact ratesOK_tick prof s m dt hmax ih

/-- C1: for every loop state reachable by the control loop (hence for every
patient, safety-monitor and estimator state it produces), the
`infusion_ml_per_min` of the `ControlOutput` returned by
`AdaptiveController::decide` on the next tick lies in
`[0.1, profile.max_safe_infusion_rate]`, assuming the profile's maximum
safe rate is at least the 0.1 minimum rate. -/
theorem commanded_rate_within_safe_interval (prof : PatientProfile)
    (hmax : 0.1 ≤ prof.max_safe_infusion_rate) (s : LoopState) (hs : Reachable prof s)
    (m : Telemetry) (dt : ℝ) :
    0.1 ≤ (tick s m dt).1.infusion_ml_per_min ∧
    (tick s m dt).1.infusion_ml_per_min ≤ prof.max_safe_infusion_rate :=
  tickCommand_mem prof s m dt hmax (reachable_ratesOK prof hmax s hs)

/-- Witness for C1 at the freshly constructed loop on healthy telemetry. -/
theorem commanded_rate_within_safe_interval_witness :
    0.1 ≤ profile0.max_safe_infusion_rate ∧
    (0.1 ≤ (tick (initLoop profile0) telemH (1/300)).1.infusion_ml_per_min ∧
      (tick (initLoop profile0) telemH (1/300)).1.infusion_ml_per_min
        ≤ profile0.max_safe_infusion_rate) :=
  ⟨by norm_num [profile0],
   commanded_rate_within_safe_interval profile0 (by norm_num [profile0]) _
     Reachable.init telemH (1/300)⟩

/-- C2 (amended): between two consecutive control-loop ticks the commanded
rate can *increase* by at most `MAX_RATE_CHANGE = 0.3` ml/min — check 3
caps the ceiling at last-rate + delta and the emergency floor can only
raise it to `0.1`, which never exceeds that cap for reachable states.  (The
original two-sided claim fails: downward changes are unbounded, see the
counterexample.) -/
theorem rate_increase_bounded_by_delta (prof : PatientProfile)
    (hmax : 0.1 ≤ prof.max_safe_infusion_rate) (s : LoopState) (hs : Reachable prof s)
    (m1 : Telemetry) (dt1 : ℝ) (m2 : Telemetry) (dt2 : ℝ) :
    (tick (tick s m1 dt1).2 m2 dt2).1.infusion_ml_per_min
      ≤ (tick s m1 dt1).1.infusion_ml_per_min + MAX_RATE_CHANGE := by
  have hOK := reachable_ratesOK prof hmax s hs
  have hr1 := tickCommand_mem prof s m1 dt1 hmax hOK
  have hOK1 : RatesOK prof (tick s m1 dt1).2 := ratesOK_tick prof s m1 dt1 hmax hOK
  set s1 := (tick s m1 dt1).2 with hs1
  set r1 := (tick s m1 dt1).1.infusion_ml_per_min with hr1def
  have hlast : s1.safety.recent_rates.getLast? = some r1 :=
    update_volume_getLast s.safety r1 dt1
  set st2 := tickState s1 m2
  set est2 := tickEst s1 m2
  set d := clampedDesired s1.controller st2 est2 with hd
  show finalRate s1.controller st2 s1.safety est2 dt2 ≤ r1 + MAX_RATE_CHANGE
  by_cases hcase : d ≤ r1 + MAX_RATE_CHANGE
  · unfold finalRate
    rw [← hd]
    split_ifs with hgt
    · exact le_trans (le_of_lt hgt) hcase
    · exact hcase
  · push_neg at hcase
    have hceil_le : (s1.safety.evaluate d st2 dt2).max_allowed_rate
        ≤ r1 + MAX_RATE_CHANGE := by
      show s1.safety.finalCeiling d st2 dt2 ≤ r1 + MAX_RATE_CHANGE
      have hr1' : (0.1 : ℝ) ≤ r1 := hr1.1
      have h3 : s1.safety.ceil3 d st2 dt2 ≤ r1 + MAX_RATE_CHANGE := by
        unfold SafetyMonitor.ceil3
        rw [hlast]
        have hdir : d > r1 := by
          unfold MAX_RATE_CHANGE at hcase
          linarith
        have habs : |d - r1| > MAX_RATE_CHANGE := by
          rw [abs_of_pos (by linarith)]
          linarith
        show (if |d - r1| > MAX_RATE_CHANGE
          then min (s1.safety.ceil2 d st2 dt2) (limitedRate d r1)
          else s1.safety.ceil2 d st2 dt2) ≤ r1 + MAX_RATE_CHANGE
        rw [if_pos habs]
        refine (min_le_right _ _).trans ?_
        unfold limitedRate
        rw [if_pos hdir]
      unfold SafetyMonitor.finalCeiling
      split_ifs with h6
      · unfold MAX_RATE_CHANGE
        linarith
      · exact le_trans (preCeiling_le_ceil4 _ _ _ _)
          (le_trans (ceil4_le_ceil3 _ _ _ _) h3)
    unfold finalRate
    rw [← hd]
    split_ifs with hgt
    · exact hceil_le
    · push_neg at hgt
      linarith

/-- Witness for C2 (amended) across the first two ticks from construction. -/
theorem rate_increase_bounded_by_delta_witness :
    0.1 ≤ profile0.max_safe_infusion_rate ∧
    (tick (tick (initLoop profile0) telemH (1/300)).2 telemH (1/300)).1.infusion_ml_per_min
      ≤ (tick (initLoop profile0) telemH (1/300)).1.infusion_ml_per_min + MAX_RATE_CHANGE :=
  ⟨by norm_num [profile0],
   rate_increase_bounded_by_delta profile0 (by norm_num [profile0]) _
     Reachable.init telemH (1/300) telemH (1/300)⟩

theorem telemA_energy_le : calculate_energy_proxy telemA ≤ 0.23 := by
  have h1 := sigmoid_le_of_nonneg 55 60 0.1 (by norm_num)
  have h2 := exp_decay_le 1 3 (by norm_num)
  have h4 := sigmoid_le_of_nonneg 85 92 0.3 (by norm_num)
  have h5 := exp_decay_le 18 0.5 (by norm_num)
  have h1' := sigmoid_pos 55 60 0.1
  have h2' := exp_decay_pos 1 3
  have h4' := sigmoid_pos 85 92 0.3
  have h5' := exp_decay_pos 18 0.5
  unfold calculate_energy_proxy
  simp only [telemA]
  rw [if_neg (by norm_num)]
  have hmax18 : max (0:ℝ) (20 - 2) = 18 := by norm_num
  rw [hmax18]
  refine clamp_le_of_le _ _ _ _ (by norm_num) ?_
  norm_num at h1 h2 h4 h5 ⊢
  linarith

theorem st1_coherence :
    (StateEstimator.init.estimateState telemA profile0 0.4).coherence_sigma = 1 := by
  show StateEstimator.init.calculate_coherence telemA = 1
  unfold StateEstimator.calculate_coherence
  simp only [StateEstimator.init, telemA, List.length_nil]
  rw [if_neg (by norm_num), if_neg (by norm_num), if_neg (by norm_num),
    if_neg (by norm_num)]
  norm_num [clamp, min_def, max_def]

theorem st1_hydration :
    (StateEstimator.init.estimateState telemA profile0 0.4).hydration_pct = 55 := by
  show clamp telemA.hydration_pct 0 100 = 55
  simp only [telemA]
  exact clamp_of_mem 55 0 100 (by norm_num) (by norm_num)

theorem st1_heart_rate :
    (StateEstimator.init.estimateState telemA profile0 0.4).heart_rate_bpm = 70 := by
  show max 0 telemA.heart_rate_bpm = 70
  simp only [telemA]
  norm_num

theorem st1_risk_gt :
    0.75 < (StateEstimator.init.estimateState telemA profile0 0.4).risk_score := by
  show 0.75 < calculate_risk_score telemA (calculate_energy_proxy telemA)
  have hE := telemA_energy_le
  have hE0 := (energy_mem telemA).1
  set E := calculate_energy_proxy telemA with hEdef
  unfold calculate_risk_score
  simp only [telemA]
  have hcrit : max (max (1:ℝ) (clamp ((95 - 85) / 10) 0 1)) (max 0 ((36 - 37) / 2)) = 1 := by
    rw [clamp_of_mem _ _ _ (by norm_num) (by norm_num)]
    norm_num
  rw [hcrit, clamp_of_mem ((100 - 55) / 50) 0 1 (by norm_num) (by norm_num)]
  have hlt : (0.76:ℝ) ≤ 0.6 * 1 + 0.3 * (0.4 * ((100 - 55) / 50)
      + 0.6 * (1 - E)) + 0.1 * max 0 ((37 - 38.5) / 2) := by
    have hther : max (0:ℝ) ((37 - 38.5) / 2) = 0 := by norm_num
    rw [hther]
    nlinarith
  have := le_clamp_of_le (0.6 * 1 + 0.3 * (0.4 * ((100 - 55) / 50)
      + 0.6 * (1 - E)) + 0.1 * max 0 ((37 - 38.5) / 2)) 0 1 0.76
    hlt (by norm_num)
  linarith

theorem st1_reserve_ge :
    0.3 ≤ (StateEstimator.init.estimateState telemA profile0 0.4).cardiac_reserve := by
  show 0.3 ≤ calculate_cardiac_reserve telemA profile0.age_years
  unfold calculate_cardiac_reserve
  simp only [telemA, profile0]
  have hs := sigmoid_le_of_nonneg (70 / (220 - 40)) 0.85 10 (by norm_num)
  have hs' := sigmoid_pos (70 / (220 - 40)) 0.85 10
  rw [clamp_of_mem (85 / 95) 0.5 1 (by norm_num) (by norm_num)]
  refine le_clamp_of_le _ 0 1 0.3 ?_ (by norm_num)
  norm_num at hs ⊢
  nlinarith

theorem tickState_eq :
    tickState (initLoop profile0) telemA
      = StateEstimator.init.estimateState telemA profile0 0.4 := rfl

theorem predict_none_of_short (e : StateEstimator) (k : ℤ) (h : e.history.length < 5) :
    e.predict_forward k = none := by
  unfold StateEstimator.predict_forward
  rw [if_pos h]

theorem est1_history_len :
    (tickEst (initLoop profile0) telemA).history.length = 1 := by
  show (StateEstimator.init.pushHistory telemA
    (tickState (initLoop profile0) telemA)).history.length = 1
  unfold StateEstimator.pushHistory
  rw [if_neg]
  · simp [StateEstimator.init]
  · simp [StateEstimator.init, MAX_HISTORY]

theorem st1_base_ge :
    0.7 ≤ calculate_base_rate (StateEstimator.init.estimateState telemA profile0 0.4) := by
  have hE1 : (StateEstimator.init.estimateState telemA profile0 0.4).energy_T ≤ 1 :=
    (energy_mem telemA).2
  have hL0 : 0 ≤ (StateEstimator.init.estimateState telemA profile0 0.4).metabolic_load :=
    (metabolic_mem telemA).1
  have hR0 : 0 ≤ (StateEstimator.init.estimateState telemA profile0 0.4).risk_score :=
    (risk_mem telemA (calculate_energy_proxy telemA)).1
  unfold calculate_base_rate
  rw [st1_hydration, if_pos (by norm_num)]
  have hn : (0:ℝ) ≤ (1 - (StateEstimator.init.estimateState telemA profile0 0.4).energy_T)
      * (1 + 0.5 * (StateEstimator.init.estimateState telemA profile0 0.4).metabolic_load) :=
    mul_nonneg (by linarith) (by linarith)
  have hy : (0.27:ℝ) ≤ (0.6 * ((100 - 55) / 100)
      + 0.4 * ((1 - (StateEstimator.init.estimateState telemA profile0 0.4).energy_T)
        * (1 + 0.5 * (StateEstimator.init.estimateState telemA profile0 0.4).metabolic_load)))
      * (1 + 0.5 * (StateEstimator.init.estimateState telemA profile0 0.4).risk_score) := by
    nlinarith [mul_nonneg hn hR0]
  have hc := le_clamp_of_le ((0.6 * ((100 - 55) / 100)
      + 0.4 * ((1 - (StateEstimator.init.estimateState telemA profile0 0.4).energy_T)
        * (1 + 0.5 * (StateEstimator.init.estimateState telemA profile0 0.4).metabolic_load)))
      * (1 + 0.5 * (StateEstimator.init.estimateState telemA profile0 0.4).risk_score))
    0 1 0.27 hy (by norm_num)
  linarith

theorem d1_ge :
    0.7 ≤ clampedDesired (initLoop profile0).controller (tickState (initLoop profile0) telemA)
      (tickEst (initLoop profile0) telemA) := by
  unfold clampedDesired preClampRate
  rw [predict_none_of_short _ 10 (by rw [est1_history_len]; norm_num)]
  unfold apply_coherence_modulation apply_cardiac_limiting
  rw [tickState_eq, st1_coherence, mul_one, if_neg (not_lt.mpr st1_reserve_ge)]
  exact le_clamp_of_le _ 0.1 _ 0.7 st1_base_ge
    (by norm_num [initLoop, AdaptiveController.init, profile0])

theorem d1_le :
    clampedDesired (initLoop profile0).controller (tickState (initLoop profile0) telemA)
      (tickEst (initLoop profile0) telemA) ≤ 1.5 := by
  have h := clamp_le_right (preClampRate (tickState (initLoop profile0) telemA)
      (tickEst (initLoop profile0) telemA)) 0.1
    ((initLoop profile0).controller.profile.max_safe_infusion_rate)
    (by norm_num [initLoop, AdaptiveController.init, profile0])
  have hmaxeq : (initLoop profile0).controller.profile.max_safe_infusion_rate = 1.5 := rfl
  rw [hmaxeq] at h
  exact h

theorem mon0_vol : (SafetyMonitor.init profile0).max_volume_24h_ml = 2450 := by
  simp [SafetyMonitor.init, profile0]
  norm_num

theorem tick1_ceiling :
    ((initLoop profile0).safety.evaluate
      (clampedDesired (initLoop profile0).controller (tickState (initLoop profile0) telemA)
        (tickEst (initLoop profile0) telemA))
      (tickState (initLoop profile0) telemA) (1/300)).max_allowed_rate = 0.6 := by
  have hd1 := d1_ge
  have hd2 := d1_le
  set d := clampedDesired (initLoop profile0).controller (tickState (initLoop profile0) telemA)
    (tickEst (initLoop profile0) telemA) with hddef
  show (SafetyMonitor.init profile0).finalCeiling d
    (tickState (initLoop profile0) telemA) (1/300) = 0.6
  rw [tickState_eq]
  have hc1 : ¬ (SafetyMonitor.init profile0).cond1 d (1/300) := by
    unfold SafetyMonitor.cond1
    rw [mon0_vol]
    have hcum : (SafetyMonitor.init profile0).cumulative_volume_ml = 0 := rfl
    rw [hcum]
    push_neg
    nlinarith
  have h1 : (SafetyMonitor.init profile0).ceil1 d (1/300) = 1.5 := by
    unfold SafetyMonitor.ceil1
    rw [if_neg hc1]
    simp [SafetyMonitor.init, profile0]
  have h2 : (SafetyMonitor.init profile0).ceil2 d
      (StateEstimator.init.estimateState telemA profile0 0.4) (1/300) = 1.5 := by
    unfold SafetyMonitor.ceil2
    rw [if_neg (not_lt.mpr (le_trans (by norm_num [MIN_CARDIAC_RESERVE]) st1_reserve_ge)), h1]
  have h3 : (SafetyMonitor.init profile0).ceil3 d
      (StateEstimator.init.estimateState telemA profile0 0.4) (1/300) = 1.5 := by
    have h3eq : (SafetyMonitor.init profile0).ceil3 d
        (StateEstimator.init.estimateState telemA profile0 0.4) (1/300)
      = (SafetyMonitor.init profile0).ceil2 d
        (StateEstimator.init.estimateState telemA profile0 0.4) (1/300) := rfl
    rw [h3eq, h2]
  have h4 : (SafetyMonitor.init profile0).ceil4 d
      (StateEstimator.init.estimateState telemA profile0 0.4) (1/300) = 0.6 := by
    unfold SafetyMonitor.ceil4
    have hrisk : SafetyMonitor.cond4 (StateEstimator.init.estimateState telemA profile0 0.4) := by
      show MAX_RISK_THRESHOLD < _
      unfold MAX_RISK_THRESHOLD
      exact st1_risk_gt
    rw [if_pos hrisk, h3]
    norm_num
  have h5 : (SafetyMonitor.init profile0).preCeiling d
      (StateEstimator.init.estimateState telemA profile0 0.4) (1/300) = 0.6 := by
    unfold SafetyMonitor.preCeiling
    rw [if_neg, h4]
    unfold SafetyMonitor.cond5
    rw [st1_heart_rate]
    have hbase : (SafetyMonitor.init profile0).profile.baseline_hr_bpm = 70 := rfl
    rw [hbase]
    norm_num
  unfold SafetyMonitor.finalCeiling
  rw [if_neg, h5]
  unfold SafetyMonitor.cond6
  rw [h5]
  intro hcontra
  norm_num at hcontra

theorem tick1_rate :
    (tick (initLoop profile0) telemA (1/300)).1.infusion_ml_per_min = 0.6 := by
  have hd1 := d1_ge
  show finalRate (initLoop profile0).controller (tickState (initLoop profile0) telemA)
    (initLoop profile0).safety (tickEst (initLoop profile0) telemA) (1/300) = 0.6
  unfold finalRate
  rw [tick1_ceiling, if_pos (by linarith)]

theorem loop1_safety :
    loop1.safety = (SafetyMonitor.init profile0).update_volume 0.6 (1/300) := by
  show (initLoop profile0).safety.update_volume
    (tick (initLoop profile0) telemA (1/300)).1.infusion_ml_per_min (1/300)
    = (SafetyMonitor.init profile0).update_volume 0.6 (1/300)
  rw [tick1_rate]
  rfl

theorem loop1_rates : loop1.safety.recent_rates = [0.6] := by
  rw [loop1_safety]
  simp [SafetyMonitor.update_volume, SafetyMonitor.init]

theorem loop1_cum : loop1.safety.cumulative_volume_ml = 0.002 := by
  rw [loop1_safety]
  show (SafetyMonitor.init profile0).cumulative_volume_ml + 0.6 * (1/300) = 0.002
  have h0 : (SafetyMonitor.init profile0).cumulative_volume_ml = 0 := rfl
  rw [h0]
  norm_num

theorem loop1_vol : loop1.safety.max_volume_24h_ml = 2450 := by
  rw [loop1_safety]
  exact mon0_vol

theorem est1_tele_len :
    (tickEst (initLoop profile0) telemA).telemetry_history.length = 1 := by
  show (StateEstimator.init.pushHistory telemA
    (tickState (initLoop profile0) telemA)).telemetry_history.length = 1
  unfold StateEstimator.pushHistory
  rw [if_neg]
  · simp [StateEstimator.init]
  · simp [StateEstimator.init, MAX_HISTORY]

theorem st2_coherence (e : StateEstimator) (r : ℝ) :
    (e.estimateState telemB profile0 r).coherence_sigma = 0.1 := by
  show e.calculate_coherence telemB = 0.1
  unfold StateEstimator.calculate_coherence
  simp only [telemB]
  rw [zero_mul, zero_mul, zero_mul, zero_mul]
  norm_num [clamp, min_def, max_def]

theorem st2_reserve_ge (e : StateEstimator) (r : ℝ) :
    0.3 ≤ (e.estimateState telemB profile0 r).cardiac_reserve := by
  show 0.3 ≤ calculate_cardiac_reserve telemB profile0.age_years
  unfold calculate_cardiac_reserve
  simp only [telemB, profile0]
  have hs := sigmoid_le_of_nonneg (70 / (220 - 40)) 0.85 10 (by norm_num)
  have hs' := sigmoid_pos (70 / (220 - 40)) 0.85 10
  have hcl : clamp ((98:ℝ) / 95) 0.5 1 = 1 := by
    norm_num [clamp, min_def, max_def]
  rw [hcl]
  refine le_clamp_of_le _ 0 1 0.3 ?_ (by norm_num)
  norm_num at hs ⊢
  nlinarith

theorem st2_risk_le (e : StateEstimator) (r : ℝ) :
    (e.estimateState telemB profile0 r).risk_score ≤ 0.75 := by
  show calculate_risk_score telemB (calculate_energy_proxy telemB) ≤ 0.75
  have hE0 := (energy_mem telemB).1
  have hE1 := (energy_mem telemB).2
  set E := calculate_energy_proxy telemB with hEdef
  unfold calculate_risk_score
  simp only [telemB]
  have hcrit : max (max (0:ℝ) (clamp ((95 - 98) / 10) 0 1)) (max 0 ((36 - 37) / 2)) = 0 := by
    norm_num [clamp, min_def, max_def]
  rw [hcrit, clamp_of_mem ((100 - 80) / 50) 0 1 (by norm_num) (by norm_num)]
  have hther : max (0:ℝ) ((37 - 38.5) / 2) = 0 := by norm_num
  rw [hther]
  refine clamp_le_of_le _ 0 1 0.75 (by norm_num) ?_
  nlinarith

theorem st2_hr (e : StateEstimator) (r : ℝ) :
    (e.estimateState telemB profile0 r).heart_rate_bpm = 70 := by
  show max 0 telemB.heart_rate_bpm = 70
  simp only [telemB]
  norm_num

theorem est2_history_len : (tickEst loop1 telemB).history.length = 2 := by
  have h1 : loop1.estimator.history.length = 1 := est1_history_len
  have hlen : (loop1.estimator.history ++ [tickState loop1 telemB]).length = 2 := by
    rw [List.length_append, h1]
    rfl
  show (loop1.estimator.pushHistory telemB (tickState loop1 telemB)).history.length = 2
  unfold StateEstimator.pushHistory
  rw [if_neg]
  · exact hlen
  · rw [hlen]
    norm_num [MAX_HISTORY]

theorem base_rate_le (st : PatientState) : calculate_base_rate st ≤ 1.8 := by
  unfold calculate_base_rate
  have h := clamp_le_right ((0.6 * (if (100 - st.hydration_pct) / 100 < 0.5
      then (100 - st.hydration_pct) / 100
      else sigmoid ((100 - st.hydration_pct) / 100) 0.5 5)
    + 0.4 * ((1 - st.energy_T) * (1 + 0.5 * st.metabolic_load)))
    * (1 + 0.5 * st.risk_score)) 0 1 zero_le_one
  linarith

theorem d2_le :
    clampedDesired loop1.controller (tickState loop1 telemB) (tickEst loop1 telemB)
      ≤ 0.18 := by
  unfold clampedDesired preClampRate
  rw [predict_none_of_short _ 10 (by rw [est2_history_len]; norm_num)]
  unfold apply_coherence_modulation apply_cardiac_limiting
  have hcoh : (tickState loop1 telemB).coherence_sigma = 0.1 :=
    st2_coherence loop1.estimator loop1.current_infusion_rate
  have hres : ¬ ((tickState loop1 telemB).cardiac_reserve < 0.3) :=
    not_lt.mpr (st2_reserve_ge loop1.estimator loop1.current_infusion_rate)
  rw [hcoh, if_neg hres]
  refine clamp_le_of_le _ 0.1 _ 0.18 (by norm_num) ?_
  have hb := base_rate_le (tickState loop1 telemB)
  have hb0 : (0:ℝ) ≤ calculate_base_rate (tickState loop1 telemB) := by
    unfold calculate_base_rate
    have := le_clamp_left ((0.6 * (if (100 - (tickState loop1 telemB).hydration_pct) / 100 < 0.5
        then (100 - (tickState loop1 telemB).hydration_pct) / 100
        else sigmoid ((100 - (tickState loop1 telemB).hydration_pct) / 100) 0.5 5)
      + 0.4 * ((1 - (tickState loop1 telemB).energy_T)
        * (1 + 0.5 * (tickState loop1 telemB).metabolic_load)))
      * (1 + 0.5 * (tickState loop1 telemB).risk_score)) 0 1
    linarith
  nlinarith

theorem d2_ge :
    0.1 ≤ clampedDesired loop1.controller (tickState loop1 telemB) (tickEst loop1 telemB) :=
  le_clamp_left _ _ _

theorem loop1_getLast : loop1.safety.recent_rates.getLast? = some 0.6 := by
  rw [loop1_rates]
  rfl

theorem tick2_cond1 :
    ¬ loop1.safety.cond1
      (clampedDesired loop1.controller (tickState loop1 telemB) (tickEst loop1 telemB))
      (1/300) := by
  unfold SafetyMonitor.cond1
  rw [loop1_cum, loop1_vol]
  push_neg
  nlinarith [d2_le, d2_ge]

theorem loop1_profile_max : loop1.safety.profile.max_safe_infusion_rate = 1.5 := rfl

theorem loop1_baseline : loop1.safety.profile.baseline_hr_bpm = 70 := rfl

theorem tick2_abs :
    |clampedDesired loop1.controller (tickState loop1 telemB) (tickEst loop1 telemB) - 0.6|
      > MAX_RATE_CHANGE := by
  have h1 := d2_le
  rw [abs_of_nonpos (by linarith)]
  unfold MAX_RATE_CHANGE
  linarith

theorem tick2_ceiling :
    (loop1.safety.evaluate
      (clampedDesired loop1.controller (tickState loop1 telemB) (tickEst loop1 telemB))
      (tickState loop1 telemB) (1/300)).max_allowed_rate = 0.3 := by
  set d := clampedDesired loop1.controller (tickState loop1 telemB) (tickEst loop1 telemB)
    with hddef
  show loop1.safety.finalCeiling d (tickState loop1 telemB) (1/300) = 0.3
  have h1 : loop1.safety.ceil1 d (1/300) = 1.5 := by
    unfold SafetyMonitor.ceil1
    rw [if_neg tick2_cond1, loop1_profile_max]
  have hres2 : ¬ SafetyMonitor.cond2 (tickState loop1 telemB) :=
    not_lt.mpr (le_trans (by norm_num [MIN_CARDIAC_RESERVE])
      (st2_reserve_ge loop1.estimator loop1.current_infusion_rate))
  have h2 : loop1.safety.ceil2 d (tickState loop1 telemB) (1/300) = 1.5 := by
    unfold SafetyMonitor.ceil2
    rw [if_neg hres2, h1]
  have h3 : loop1.safety.ceil3 d (tickState loop1 telemB) (1/300) = 0.3 := by
    unfold SafetyMonitor.ceil3
    rw [loop1_getLast]
    show (if |d - 0.6| > MAX_RATE_CHANGE
      then min (loop1.safety.ceil2 d (tickState loop1 telemB) (1/300)) (limitedRate d 0.6)
      else loop1.safety.ceil2 d (tickState loop1 telemB) (1/300)) = 0.3
    rw [if_pos tick2_abs, h2]
    have hlim : limitedRate d 0.6 = 0.3 := by
      unfold limitedRate
      rw [if_neg (by have := d2_le; rw [← hddef] at this; push_neg; linarith)]
      unfold MAX_RATE_CHANGE
      norm_num
    rw [hlim]
    norm_num
  have h4 : loop1.safety.ceil4 d (tickState loop1 telemB) (1/300) = 0.3 := by
    unfold SafetyMonitor.ceil4
    rw [if_neg, h3]
    show ¬ (MAX_RISK_THRESHOLD < (tickState loop1 telemB).risk_score)
    push_neg
    unfold MAX_RISK_THRESHOLD
    exact st2_risk_le loop1.estimator loop1.current_infusion_rate
  have h5 : loop1.safety.preCeiling d (tickState loop1 telemB) (1/300) = 0.3 := by
    unfold SafetyMonitor.preCeiling
    rw [if_neg, h4]
    unfold SafetyMonitor.cond5
    rw [loop1_baseline]
    have hhr : (tickState loop1 telemB).heart_rate_bpm = 70 :=
      st2_hr loop1.estimator loop1.current_infusion_rate
    rw [hhr]
    norm_num
  unfold SafetyMonitor.finalCeiling
  rw [if_neg, h5]
  unfold SafetyMonitor.cond6
  rw [h5]
  intro hcontra
  norm_num at hcontra

theorem tick2_warnings :
    (tick loop1 telemB (1/300)).1.warning_flags = "RATE_CHANGE_LIMITED " := by
  show (loop1.safety.evaluate
    (clampedDesired loop1.controller (tickState loop1 telemB) (tickEst loop1 telemB))
    (tickState loop1 telemB) (1/300)).warnings = "RATE_CHANGE_LIMITED "
  set d := clampedDesired loop1.controller (tickState loop1 telemB) (tickEst loop1 telemB)
    with hddef
  show loop1.safety.preWarnings d (tickState loop1 telemB) (1/300)
    ++ (if loop1.safety.cond6 d (tickState loop1 telemB) (1/300)
        then "EMERGENCY_MIN_RATE " else "") = "RATE_CHANGE_LIMITED "
  have hfc : loop1.safety.finalCeiling d (tickState loop1 telemB) (1/300) = 0.3 :=
    tick2_ceiling
  have hc6 : ¬ loop1.safety.cond6 d (tickState loop1 telemB) (1/300) := by
    unfold SafetyMonitor.cond6
    have h5 : loop1.safety.preCeiling d (tickState loop1 telemB) (1/300) = 0.3 := by
      unfold SafetyMonitor.finalCeiling at hfc
      by_cases hfire : loop1.safety.cond6 d (tickState loop1 telemB) (1/300)
      · rw [if_pos hfire] at hfc
        norm_num at hfc
      · rw [if_neg hfire] at hfc
        exact hfc
    rw [h5]
    intro hcontra
    norm_num at hcontra
  rw [if_neg hc6]
  unfold SafetyMonitor.preWarnings
  have hres2 : ¬ SafetyMonitor.cond2 (tickState loop1 telemB) :=
    not_lt.mpr (le_trans (by norm_num [MIN_CARDIAC_RESERVE])
      (st2_reserve_ge loop1.estimator loop1.current_infusion_rate))
  rw [if_neg tick2_cond1, if_neg hres2, loop1_getLast]
  show ("" ++ "" ++ (if |d - 0.6| > MAX_RATE_CHANGE then "RATE_CHANGE_LIMITED " else "")
    ++ (if SafetyMonitor.cond4 (tickState loop1 telemB) then "HIGH_RISK_STATE " else "")
    ++ (if loop1.safety.cond5 (tickState loop1 telemB) then "TACHYCARDIA_DETECTED " else ""))
    ++ "" = "RATE_CHANGE_LIMITED "
  rw [if_pos tick2_abs]
  rw [if_neg (show ¬ SafetyMonitor.cond4 (tickState loop1 telemB) by
    unfold SafetyMonitor.cond4
    push_neg
    unfold MAX_RISK_THRESHOLD
    exact st2_risk_le loop1.estimator loop1.current_infusion_rate)]
  rw [if_neg (show ¬ loop1.safety.cond5 (tickState loop1 telemB) by
    have hhr : (tickState loop1 telemB).heart_rate_bpm = 70 :=
      st2_hr loop1.estimator loop1.current_infusion_rate
    unfold SafetyMonitor.cond5
    rw [loop1_baseline, hhr]
    norm_num)]
  rfl

theorem tick2_rate_le :
    (tick loop1 telemB (1/300)).1.infusion_ml_per_min ≤ 0.18 := by
  show finalRate loop1.controller (tickState loop1 telemB) loop1.safety
    (tickEst loop1 telemB) (1/300) ≤ 0.18
  unfold finalRate
  rw [tick2_ceiling]
  split_ifs with h
  · linarith [d2_le]
  · exact d2_le

/-- C2 counterexample: starting from construction, one tick on `telemA`
commands 0.6 ml/min, and the next tick on `telemB` (sensors gone silent)
commands at most 0.18 ml/min — a drop exceeding the 0.3 per-cycle delta —
while the safety check emits only `RATE_CHANGE_LIMITED`, not
`EMERGENCY_MIN_RATE`. -/
theorem rate_drop_exceeds_delta_counterexample :
    MAX_RATE_CHANGE < (tick (initLoop profile0) telemA (1/300)).1.infusion_ml_per_min
      - (tick loop1 telemB (1/300)).1.infusion_ml_per_min ∧
    (tick loop1 telemB (1/300)).1.warning_flags = "RATE_CHANGE_LIMITED " := by
  refine ⟨?_, tick2_warnings⟩
  rw [tick1_rate]
  unfold MAX_RATE_CHANGE
  linarith [tick2_rate_le]

end IVSys
